import Mathlib

/-!
Shallow embedding of the finance core of the ERP repository
(`src/modelas2.py`): journal entries, invoices, invoice lines, payments
and payment allocations, together with the computations defined on them
(`JournalEntry.is_balanced`, `Invoice.is_overdue`,
`Invoice.calculate_totals`, `InvoiceLine.calculate_totals`).

Python `Decimal` arithmetic on the involved operations (+, −, ×, division
by 100) is modelled by exact rational arithmetic (`ℚ`); dates are modelled
as integers ordered chronologically; Django string-valued status/choice
fields are modelled as `String`.

Operations that the specification describes but that are absent from the
source files (the source holds only the model declarations), namely
`LedgerPoster.post` and `PaymentAllocator.allocate`, are modelled from the
spec and are marked as such in their doc comments.
-/

namespace ERP

/-- A line of a journal entry (`JournalEntryLine` in `src/modelas2.py`):
a debit amount and a credit amount against one account. -/
structure JournalEntryLine where
  line_number : Int
  account : String
  debit : ℚ
  credit : ℚ
deriving Repr, DecidableEq

/-- A journal entry (`JournalEntry` in `src/modelas2.py`): status is one of
"draft", "posted", "cancelled"; `total_debit` and `total_credit` are cached
summary fields. -/
structure JournalEntry where
  entry_number : String
  status : String
  total_debit : ℚ
  total_credit : ℚ
  lines : List JournalEntryLine
deriving Repr, DecidableEq

/-- `JournalEntry.is_balanced` from `src/modelas2.py` lines 140-142:
`return self.total_debit == self.total_credit`. -/
def JournalEntry.is_balanced (e : JournalEntry) : Bool :=
  e.total_debit == e.total_credit

/-- Sum of the debit amounts of a list of journal lines. -/
def sumDebit (lines : List JournalEntryLine) : ℚ :=
  (lines.map JournalEntryLine.debit).sum

/-- Sum of the credit amounts of a list of journal lines. -/
def sumCredit (lines : List JournalEntryLine) : ℚ :=
  (lines.map JournalEntryLine.credit).sum

/-- Errors of the posting operation, from spec section 4.2. -/
inductive PostingError where
  | Unbalanced
  | AlreadyPosted
  | UnknownAccount
deriving Repr, DecidableEq

/-- Modelled from the spec: `LedgerPoster.post` (section 4.2) is not present
in `src/` (the source holds only the Django model declarations).  Per the
spec it fails with `AlreadyPosted` if the entry status is not draft, with
`UnknownAccount` if any line references an account unknown to the registry,
and with `Unbalanced` if the debit sum of the lines differs from the credit
sum;
on success it sets status to posted and recomputes the cached
`total_debit` / `total_credit` fields.  The account registry is abstracted
as a validity predicate on account identifiers. -/
def post (validAccount : String → Bool) (e : JournalEntry) :
    Except PostingError JournalEntry :=
  if e.status ≠ "draft" then .error .AlreadyPosted
  else if ¬ (e.lines.all fun l => validAccount l.account) then
    .error .UnknownAccount
  else if sumDebit e.lines ≠ sumCredit e.lines then .error .Unbalanced
  else .ok { e with
    status := "posted"
    total_debit := sumDebit e.lines
    total_credit := sumCredit e.lines }

/-- An invoice line (`InvoiceLine` in `src/modelas2.py`): quantity,
unit price, discount percent and tax rate inputs, with derived
`line_total` and `tax_amount` fields. -/
structure InvoiceLine where
  line_number : Int
  quantity : ℚ
  unit_price : ℚ
  discount_percent : ℚ
  line_total : ℚ
  tax_rate : ℚ
  tax_amount : ℚ
  revenue_account : String
deriving Repr, DecidableEq

/-- `InvoiceLine.calculate_totals` from `src/modelas2.py` lines 301-307:
`discount_factor = 1 - (self.discount_percent / 100)`;
`subtotal = self.quantity * self.unit_price * discount_factor`;
`self.line_total = subtotal`;
`self.tax_amount = subtotal * (self.tax_rate / 100)`. -/
def InvoiceLine.calculate_totals (l : InvoiceLine) : InvoiceLine :=
  let discount_factor := 1 - l.discount_percent / 100
  let subtotal := l.quantity * l.unit_price * discount_factor
  { l with
    line_total := subtotal
    tax_amount := subtotal * (l.tax_rate / 100) }

/-- An invoice (`Invoice` in `src/modelas2.py`): cached totals, currency
snapshot, a string status and a list of owned line items. -/
structure Invoice where
  invoice_number : String
  invoice_type : String
  due_date : Int
  subtotal : ℚ
  tax_amount : ℚ
  discount_amount : ℚ
  total_amount : ℚ
  paid_amount : ℚ
  balance_due : ℚ
  currency : String
  exchange_rate : ℚ
  status : String
  line_items : List InvoiceLine
deriving Repr, DecidableEq

/-- The `INVOICE_STATUS` choices tuple from `src/modelas2.py` lines 189-196. -/
def INVOICE_STATUS : List String :=
  ["draft", "sent", "partially_paid", "paid", "cancelled", "overdue"]

/-- `Invoice.is_overdue` from `src/modelas2.py` lines 250-253: the due date
is strictly before the current date and the status is not among paid and
cancelled.  The read date `today` is a parameter. -/
def Invoice.is_overdue (inv : Invoice) (today : Int) : Bool :=
  decide (inv.due_date < today) &&
    ! (["paid", "cancelled"].contains inv.status)

/-- `Invoice.calculate_totals` from `src/modelas2.py` lines 255-263:
subtotal becomes the aggregate sum of line_total over the line items,
tax_amount the aggregate sum of tax_amount;
`self.total_amount = self.subtotal + self.tax_amount - self.discount_amount`;
`self.balance_due = self.total_amount - self.paid_amount`.
Django `Sum` over an empty set yields `None`, which the `or` guard replaces
by the decimal zero; a zero sum is likewise replaced by the equal decimal
zero; both coincide with the list sum over `ℚ`. -/
def Invoice.calculate_totals (inv : Invoice) : Invoice :=
  let subtotal := (inv.line_items.map InvoiceLine.line_total).sum
  let tax := (inv.line_items.map InvoiceLine.tax_amount).sum
  let total := subtotal + tax - inv.discount_amount
  { inv with
    subtotal := subtotal
    tax_amount := tax
    total_amount := total
    balance_due := total - inv.paid_amount }

/-- A payment (`Payment` in `src/modelas2.py`). -/
structure Payment where
  payment_number : String
  amount : ℚ
  currency : String
  exchange_rate : ℚ
  status : String
deriving Repr, DecidableEq

/-- A payment allocation (`PaymentAllocation` in `src/modelas2.py`):
links one payment to one invoice with an allocated amount. -/
structure PaymentAllocation where
  payment_number : String
  invoice_number : String
  allocated_amount : ℚ
deriving Repr, DecidableEq

/-- Errors of the allocation operation, from spec section 4.4. -/
inductive AllocationError where
  | OverAllocation
  | ExceedsBalanceDue
  | CurrencyMismatch
deriving Repr, DecidableEq

/-- Modelled from the spec: `PaymentAllocator.allocate` (section 4.4) is not
present in `src/` (the source holds only the model declarations).  Per the
spec it fails with `OverAllocation` if the amount exceeds the unallocated
remainder of the payment, with `ExceedsBalanceDue` if the amount exceeds
the balance due of the invoice, and with `CurrencyMismatch` if the
currencies differ; on success it records the allocation, adds the amount
to `paid_amount` of the invoice, recomputes `balance_due`, and transitions
the invoice status (`paid` when the balance reaches zero, `partially_paid`
when the balance is strictly between zero and the total, otherwise
unchanged).  The existing allocation amounts of the payment and of the
invoice are passed as lists. -/
def allocate (p : Payment) (pAllocs : List ℚ) (inv : Invoice)
    (iAllocs : List ℚ) (amount : ℚ) :
    Except AllocationError (List ℚ × Invoice × List ℚ) :=
  if amount > p.amount - pAllocs.sum then .error .OverAllocation
  else if amount > inv.balance_due then .error .ExceedsBalanceDue
  else if p.currency ≠ inv.currency then .error .CurrencyMismatch
  else
    let paid := inv.paid_amount + amount
    let bal := inv.total_amount - paid
    let status :=
      if bal = 0 then "paid"
      else if 0 < bal ∧ bal < inv.total_amount then "partially_paid"
      else inv.status
    .ok (amount :: pAllocs,
      { inv with paid_amount := paid, balance_due := bal, status := status },
      amount :: iAllocs)

/-- Spec-side definition (for comparison with the code, which this
repository nowhere implements): round to 2 decimal places with half-up
rounding, per the rounding policy of spec section 4.3.  Stated for the
nonnegative amounts at issue (half-up rounds ties upward). -/
def specRoundHalfUp2 (x : ℚ) : ℚ :=
  ((⌊x * 100 + 1 / 2⌋ : ℤ) : ℚ) / 100

/-- `x` is representable with at most two decimal places. -/
def twoDecimalPlaces (x : ℚ) : Prop :=
  ∃ n : ℤ, x = (n : ℚ) / 100

/-- A default invoice record used to build concrete test invoices. -/
def baseInvoice : Invoice :=
  { invoice_number := "INV-0001"
    invoice_type := "sales"
    due_date := 0
    subtotal := 0
    tax_amount := 0
    discount_amount := 0
    total_amount := 0
    paid_amount := 0
    balance_due := 0
    currency := "USD"
    exchange_rate := 1
    status := "draft"
    line_items := [] }

/-- The invoice line of Scenario A: quantity 2, unit price 100,
discount 10 percent, tax rate 5 percent. -/
def scenarioALine : InvoiceLine :=
  { line_number := 1
    quantity := 2
    unit_price := 100
    discount_percent := 10
    line_total := 0
    tax_rate := 5
    tax_amount := 0
    revenue_account := "4000" }

/-- The single-line invoice of Scenario A, holding the computed line. -/
def scenarioAInvoice : Invoice :=
  { baseInvoice with line_items := [scenarioALine.calculate_totals] }

/-- A line with quantity 1 and unit price 1.005 (four decimal places are
allowed on unit_price), no discount and no tax. -/
def thirdDecimalLine : InvoiceLine :=
  { line_number := 1
    quantity := 1
    unit_price := 1005 / 1000
    discount_percent := 0
    line_total := 0
    tax_rate := 0
    tax_amount := 0
    revenue_account := "4000" }

/-- A concrete draft journal entry with lines debit 100 / credit 100. -/
def draftEntry : JournalEntry :=
  { entry_number := "JE-0001"
    status := "draft"
    total_debit := 0
    total_credit := 0
    lines := [⟨1, "1000", 100, 0⟩, ⟨2, "4000", 0, 100⟩] }

/-- The result of posting `draftEntry`. -/
def postedEntry : JournalEntry :=
  { draftEntry with
    status := "posted"
    total_debit := 100
    total_credit := 100 }

/-- A concrete completed payment of 100 USD. -/
def samplePayment : Payment :=
  { payment_number := "PAY-0001"
    amount := 100
    currency := "USD"
    exchange_rate := 1
    status := "pending" }

/-- A concrete sent invoice with total 189, nothing paid yet. -/
def sampleInvoice : Invoice :=
  { baseInvoice with
    total_amount := 189
    balance_due := 189
    status := "sent" }

/-- The invoice state after allocating 100 to `sampleInvoice`. -/
def sampleInvoiceAfter : Invoice :=
  { sampleInvoice with
    paid_amount := 100
    balance_due := 89
    status := "partially_paid" }

/-- A second concrete payment and invoice pair for the status theorem. -/
def statusPayment : Payment :=
  { payment_number := "PAY-0002"
    amount := 50
    currency := "USD"
    exchange_rate := 1
    status := "pending" }

/-- A sent invoice with total 200 used in the status theorem. -/
def statusInvoice : Invoice :=
  { baseInvoice with
    total_amount := 200
    balance_due := 200
    status := "sent" }

end ERP

namespace ERP

/-- C2: after `Invoice.calculate_totals`, the subtotal equals the sum of
line_total over the line items, tax_amount equals the sum of tax_amount
over the line items, total_amount equals subtotal + tax_amount −
discount_amount, and balance_due equals total_amount − paid_amount. -/
theorem invoice_calculate_totals_correct (inv : Invoice) :
    (inv.calculate_totals).subtotal
        = (inv.line_items.map InvoiceLine.line_total).sum ∧
    (inv.calculate_totals).tax_amount
        = (inv.line_items.map InvoiceLine.tax_amount).sum ∧
    (inv.calculate_totals).total_amount
        = (inv.calculate_totals).subtotal + (inv.calculate_totals).tax_amount
            - (inv.calculate_totals).discount_amount ∧
    (inv.calculate_totals).balance_due
        = (inv.calculate_totals).total_amount
            - (inv.calculate_totals).paid_amount :=
  ⟨rfl, rfl, rfl, rfl⟩

/-- C3: `InvoiceLine.calculate_totals` yields
line_total = quantity × unit_price × (1 − discount_percent/100) and
tax_amount = line_total × tax_rate/100 (tax on the discounted total). -/
theorem invoice_line_calculate_totals_correct (l : InvoiceLine) :
    (l.calculate_totals).line_total
        = l.quantity * l.unit_price * (1 - l.discount_percent / 100) ∧
    (l.calculate_totals).tax_amount
        = (l.calculate_totals).line_total * (l.tax_rate / 100) :=
  ⟨rfl, rfl⟩

/-- C6: the totals computations are idempotent: recomputing on unchanged
lines (and unchanged discount_amount and paid_amount) reproduces the exact
same record, at the invoice level and at the line level. -/
theorem calculate_totals_idempotent (inv : Invoice) (l : InvoiceLine) :
    (inv.calculate_totals).calculate_totals = inv.calculate_totals ∧
    (l.calculate_totals).calculate_totals = l.calculate_totals :=
  ⟨rfl, rfl⟩

/-- C7: Scenario A: the line (quantity 2, unit price 100, discount 10
percent, tax 5 percent) computes line_total 180 and tax_amount 9, and the
single-line invoice holding it (discount_amount 0, paid_amount 0) computes
subtotal 180, tax_amount 9 and total_amount 189. -/
theorem scenario_a_totals :
    (scenarioALine.calculate_totals).line_total = 180 ∧
    (scenarioALine.calculate_totals).tax_amount = 9 ∧
    (scenarioAInvoice.calculate_totals).subtotal = 180 ∧
    (scenarioAInvoice.calculate_totals).tax_amount = 9 ∧
    (scenarioAInvoice.calculate_totals).total_amount = 189 := by
  refine ⟨?_, ?_, ?_, ?_, ?_⟩ <;>
    simp [scenarioALine, scenarioAInvoice, baseInvoice,
      InvoiceLine.calculate_totals, Invoice.calculate_totals] <;>
    norm_num

/-- C8: `Invoice.is_overdue` holds exactly when the due date is strictly
before the read date and the status is neither paid nor cancelled. -/
theorem is_overdue_iff (inv : Invoice) (today : Int) :
    inv.is_overdue today = true ↔
      inv.due_date < today ∧
        inv.status ≠ "paid" ∧ inv.status ≠ "cancelled" := by
  simp [Invoice.is_overdue, List.contains, and_assoc]

/-- C10: `Invoice.calculate_totals` writes only subtotal, tax_amount,
total_amount and balance_due: discount_amount, paid_amount, status,
currency, exchange_rate, due_date and the line items are unchanged; and
with no line items it yields subtotal 0, tax_amount 0, total_amount
−discount_amount and balance_due −discount_amount − paid_amount. -/
theorem calculate_totals_frame (inv : Invoice) :
    (inv.calculate_totals).discount_amount = inv.discount_amount ∧
    (inv.calculate_totals).paid_amount = inv.paid_amount ∧
    (inv.calculate_totals).status = inv.status ∧
    (inv.calculate_totals).currency = inv.currency ∧
    (inv.calculate_totals).exchange_rate = inv.exchange_rate ∧
    (inv.calculate_totals).due_date = inv.due_date ∧
    (inv.calculate_totals).line_items = inv.line_items ∧
    (Invoice.calculate_totals { inv with line_items := [] }).subtotal = 0 ∧
    (Invoice.calculate_totals { inv with line_items := [] }).tax_amount = 0 ∧
    (Invoice.calculate_totals { inv with line_items := [] }).total_amount
        = -inv.discount_amount ∧
    (Invoice.calculate_totals { inv with line_items := [] }).balance_due
        = -inv.discount_amount - inv.paid_amount := by
  refine ⟨rfl, rfl, rfl, rfl, rfl, rfl, rfl, rfl, rfl, ?_, ?_⟩ <;>
    simp [Invoice.calculate_totals]

end ERP


namespace ERP

/-- C1: a successfully posted journal entry has equal debit and credit
sums over its lines, its cached total_debit and total_credit fields each
equal that common sum, and the derived `is_balanced` accessor (defined in
the source as total_debit == total_credit) is true. -/
theorem post_entry_balanced (validAccount : String → Bool)
    (e e' : JournalEntry) (h : post validAccount e = .ok e') :
    e'.status = "posted" ∧
    sumDebit e'.lines = sumCredit e'.lines ∧
    e'.total_debit = sumDebit e'.lines ∧
    e'.total_credit = sumCredit e'.lines ∧
    e'.is_balanced = true := by
  unfold post at h
  split_ifs at h with h1 h2 h3
  injection h with h4
  subst h4
  push_neg at h3
  refine ⟨rfl, h3, rfl, rfl, ?_⟩
  simp [JournalEntry.is_balanced, h3]

/-- Witness for C1: posting the concrete draft entry with lines
debit 100 / credit 100 succeeds and the result satisfies the
posted-entry invariant. -/
theorem post_entry_balanced_witness :
    postedEntry.status = "posted" ∧
    sumDebit postedEntry.lines = sumCredit postedEntry.lines ∧
    postedEntry.total_debit = sumDebit postedEntry.lines ∧
    postedEntry.total_credit = sumCredit postedEntry.lines ∧
    postedEntry.is_balanced = true :=
  post_entry_balanced (fun _ => true) draftEntry postedEntry (by
    simp [post, draftEntry, postedEntry, sumDebit, sumCredit])

/-- C4 counterexample: for the line with quantity 1, unit price 1.005,
no discount and no tax, the persisted line_total is exactly 1.005
(= 201/200): it is not representable with two decimal places and it
differs from the half-up rounding (1.01) of the exact computed value, so
the code applies no rounding at persistence time. -/
theorem rounding_policy_counterexample :
    (thirdDecimalLine.calculate_totals).line_total = 201 / 200 ∧
    ¬ twoDecimalPlaces (thirdDecimalLine.calculate_totals).line_total ∧
    (thirdDecimalLine.calculate_totals).line_total ≠
      specRoundHalfUp2 (thirdDecimalLine.quantity * thirdDecimalLine.unit_price
        * (1 - thirdDecimalLine.discount_percent / 100)) := by
  have hval : (thirdDecimalLine.calculate_totals).line_total = 201 / 200 := by
    norm_num [thirdDecimalLine, InvoiceLine.calculate_totals]
  refine ⟨hval, ?_, ?_⟩
  · rintro ⟨n, hn⟩
    rw [hval] at hn
    have h2 : (n : ℚ) = 201 / 2 := by field_simp at hn; linarith
    have h3 : ((2 * n : ℤ) : ℚ) = ((201 : ℤ) : ℚ) := by push_cast; linarith
    have h4 : (2 * n : ℤ) = 201 := Int.cast_injective h3
    omega
  · rw [hval]
    have harg : thirdDecimalLine.quantity * thirdDecimalLine.unit_price
        * (1 - thirdDecimalLine.discount_percent / 100) = 201 / 200 := by
      norm_num [thirdDecimalLine]
    rw [harg]
    unfold specRoundHalfUp2
    have hfl : ⌊(201 : ℚ) / 200 * 100 + 1 / 2⌋ = 101 := by
      norm_num
    rw [hfl]
    norm_num

/-- C4 amended: the invoice calculations persist the exact computed
Decimal values with no rounding step: line_total, the line tax_amount and
every cached invoice total equal the exact rational value of the source
formulas, so a persisted amount can carry more than two decimal places. -/
theorem amounts_persisted_unrounded (l : InvoiceLine) (inv : Invoice) :
    (l.calculate_totals).line_total
        = l.quantity * l.unit_price * (1 - l.discount_percent / 100) ∧
    (l.calculate_totals).tax_amount
        = l.quantity * l.unit_price * (1 - l.discount_percent / 100)
            * (l.tax_rate / 100) ∧
    (inv.calculate_totals).subtotal
        = (inv.line_items.map InvoiceLine.line_total).sum ∧
    (inv.calculate_totals).tax_amount
        = (inv.line_items.map InvoiceLine.tax_amount).sum ∧
    (inv.calculate_totals).total_amount
        = (inv.line_items.map InvoiceLine.line_total).sum
            + (inv.line_items.map InvoiceLine.tax_amount).sum
            - inv.discount_amount ∧
    (inv.calculate_totals).balance_due
        = (inv.line_items.map InvoiceLine.line_total).sum
            + (inv.line_items.map InvoiceLine.tax_amount).sum
            - inv.discount_amount - inv.paid_amount :=
  ⟨rfl, rfl, rfl, rfl, rfl, rfl⟩

/-- C5: a successful allocation preserves both allocation bounds: the
allocated amounts of the payment still sum to at most the payment amount
(the OverAllocation guard rejects anything beyond the unallocated
remainder), and the allocated amounts of the invoice still sum to at most
the invoice total (given the invariant that paid_amount is the sum of the
existing allocations of the invoice and balance_due = total_amount −
paid_amount). -/
theorem allocate_preserves_bounds (p : Payment) (pAllocs : List ℚ)
    (inv : Invoice) (iAllocs : List ℚ) (amount : ℚ)
    (pA' : List ℚ) (inv' : Invoice) (iA' : List ℚ)
    (_hp : pAllocs.sum ≤ p.amount)
    (hpaid : inv.paid_amount = iAllocs.sum)
    (hbal : inv.balance_due = inv.total_amount - inv.paid_amount)
    (h : allocate p pAllocs inv iAllocs amount = .ok (pA', inv', iA')) :
    pA'.sum ≤ p.amount ∧ iA'.sum ≤ inv'.total_amount := by
  unfold allocate at h
  split_ifs at h with h1 h2 h3
  injection h with h4
  rw [Prod.mk.injEq, Prod.mk.injEq] at h4
  obtain ⟨hpA, hinv, hiA⟩ := h4
  subst hpA
  subst hiA
  subst hinv
  push_neg at h1 h2
  constructor
  · simp only [List.sum_cons]
    linarith
  · simp only [List.sum_cons]
    show amount + iAllocs.sum ≤ inv.total_amount
    linarith

/-- Witness for C5: allocating 100 of the 100 payment against the
total-189 invoice with no prior allocations succeeds and both bounds
hold afterwards. -/
theorem allocate_preserves_bounds_witness :
    ([100] : List ℚ).sum ≤ samplePayment.amount ∧
    ([100] : List ℚ).sum ≤ sampleInvoiceAfter.total_amount :=
  allocate_preserves_bounds samplePayment [] sampleInvoice [] 100 [100]
    sampleInvoiceAfter [100]
    (by norm_num [samplePayment])
    (by norm_num [sampleInvoice, baseInvoice])
    (by norm_num [sampleInvoice, baseInvoice])
    (by simp [allocate, samplePayment, sampleInvoice, sampleInvoiceAfter,
          baseInvoice]
        norm_num)

/-- C9: no operation stores the status overdue: `Invoice.calculate_totals`
leaves the status field unchanged (so it stays distinct from overdue), and
a successful allocation only ever sets the status to paid or
partially_paid or leaves it unchanged, never to overdue; overdue-ness is
only computed at read time by `Invoice.is_overdue`. -/
theorem overdue_never_stored (inv : Invoice) (p : Payment)
    (pAllocs iAllocs : List ℚ) (amount : ℚ)
    (hs : inv.status ≠ "overdue") :
    (inv.calculate_totals).status ≠ "overdue" ∧
    ∀ pA' inv' iA',
      allocate p pAllocs inv iAllocs amount = .ok (pA', inv', iA') →
        inv'.status ≠ "overdue" := by
  refine ⟨hs, ?_⟩
  intro pA' inv' iA' h
  unfold allocate at h
  split_ifs at h with h1 h2 h3
  injection h with h4
  rw [Prod.mk.injEq, Prod.mk.injEq] at h4
  obtain ⟨hpA, hinv, hiA⟩ := h4
  subst hinv
  show (if _ then "paid" else if _ then "partially_paid" else inv.status)
      ≠ "overdue"
  split_ifs <;> first | decide | exact hs

/-- Witness for C9: the concrete sent invoice with total 200 stays away
from a stored overdue status under totals recomputation and under the
allocation of 50 from the concrete payment. -/
theorem overdue_never_stored_witness :
    (statusInvoice.calculate_totals).status ≠ "overdue" ∧
    ∀ pA' inv' iA',
      allocate statusPayment [] statusInvoice [] 50 = .ok (pA', inv', iA') →
        inv'.status ≠ "overdue" :=
  overdue_never_stored statusInvoice statusPayment [] [] 50 (by
    simp [statusInvoice, baseInvoice])

end ERP
